import Mathlib

/-!
Verification of the nearby-places mobile application core against its
natural-language specification.

The development shallowly embeds the three core components of the source:
the Places API client (app/services/nearbyPlacesApi.ts), the location
provider (app/services/location.ts) and the location/places store
(app/store/locationStore.ts).  JavaScript numbers are modelled as exact
rationals, fallible asynchronous calls as Except values, and the ambient
platform (HTTP server, geolocation hardware, permission dialogs) as
explicit environment arguments.  Every definition follows the control
flow of the corresponding source function; theorems about the claims of
the specification follow after all definitions.
-/

/- ===================== Data model (app/types/location.ts) ===================== -/

/-- The Location value object: latitude/longitude plus optional viewport
deltas, accuracy and timestamp (all numeric fields are JS numbers,
modelled as rationals). -/
structure Location where
  latitude : ℚ
  longitude : ℚ
  latitudeDelta : Option ℚ := none
  longitudeDelta : Option ℚ := none
  accuracy : Option ℚ := none
  timestamp : Option ℚ := none

/-- The openingHours sub-object of Place.  The untyped periods array is
unused by the program and omitted. -/
structure OpeningHours where
  open_now : Bool
  weekday_text : Option (List String) := none

/-- The Place entity produced by transforming API responses.  The reviews
field is never constructed or read by the core and is omitted. -/
structure Place where
  id : String
  name : String
  address : String
  location : Location
  rating : Option ℚ := none
  types : Option (List String) := none
  photos : Option (List String) := none
  placeId : Option String := none
  distance : Option ℚ := none
  phoneNumber : Option String := none
  website : Option String := none
  openingHours : Option OpeningHours := none
  priceLevel : Option ℕ := none

/-- The four-value permission status vocabulary. -/
inductive PermStatus where
  | granted
  | denied
  | restricted
  | never_ask_again
deriving DecidableEq

/-- LocationPermission: a status plus the canAskAgain flag. -/
structure LocationPermission where
  status : PermStatus
  canAskAgain : Bool
deriving DecidableEq

/-- SUPPORTED_PLACE_TYPES from app/types/location.ts. -/
def SUPPORTED_PLACE_TYPES : List String :=
  ["restaurant", "cafe", "gas_station", "bank", "pharmacy", "lodging",
   "park", "gym", "hospital", "shopping_mall", "store", "bar", "school",
   "police", "post_office", "library", "museum", "movie_theater",
   "amusement_park", "aquarium", "zoo", "stadium", "airport",
   "train_station", "bus_station", "subway_station"]

/-- NEARBY_PLACES_CONFIG from app/types/location.ts. -/
structure NearbyPlacesConfig where
  DEFAULT_RADIUS : ℚ
  MAX_RESULTS : ℕ
  DEFAULT_TYPE : String

def NEARBY_PLACES_CONFIG : NearbyPlacesConfig :=
  { DEFAULT_RADIUS := 5000, MAX_RESULTS := 20, DEFAULT_TYPE := "restaurant" }

/- ===================== Configuration (config/env.ts) ===================== -/

/-- ENV.DEFAULT_LOCATION (San Francisco). -/
def ENV_DEFAULT_LOCATION : Location :=
  { latitude := 37.7749, longitude := -122.4194,
    latitudeDelta := some 0.0922, longitudeDelta := some 0.0421 }

/-- ENV.API_CONFIG.TIMEOUT (milliseconds). -/
def ENV_API_TIMEOUT : ℕ := 10000

/-- ENV.API_CONFIG.RETRY_ATTEMPTS (read into the client but never used by it). -/
def ENV_API_RETRY_ATTEMPTS : ℕ := 3

/-- ENV.API_CONFIG.RATE_LIMIT_DELAY (milliseconds). -/
def ENV_API_RATE_LIMIT_DELAY : ℕ := 1000

/- ============ Places API client (app/services/nearbyPlacesApi.ts) ============ -/

/-- One HTTP response the server gives to one fetch attempt.  The
Retry-After header is modelled as an already-parsed number of seconds
when present.  The body is the JSON payload the typed makeRequest
call would parse on a successful response. -/
structure HttpResponse (α : Type) where
  status : ℕ
  statusText : String
  retryAfterHeader : Option ℕ := none
  body : α

/-- fetch marks a response ok exactly when its status is in 200..299. -/
def responseOk {α : Type} (r : HttpResponse α) : Bool :=
  200 ≤ r.status && r.status < 300

/-- The observable outcome of makeRequest: how many fetch attempts were
issued, which rate-limit delays (in milliseconds) were awaited in order,
and the final result (parsed body or error message). -/
structure RequestResult (α : Type) where
  attempts : ℕ
  delays : List ℕ
  result : Except String α

/-- makeRequest, driven by the list of responses the server returns to
successive attempts of the same request.  A 429 response waits the
parsed Retry-After seconds times 1000 (or the configured rate-limit
delay when the header is absent) and then re-issues the identical
request against the remaining responses; any other non-2xx status
raises an HTTP error; an exhausted response list stands for a network
failure of the attempt. -/
def makeRequest {α : Type} : List (HttpResponse α) → RequestResult α
  | [] => { attempts := 1, delays := [], result := Except.error "Network request failed" }
  | r :: rest =>
    if r.status = 429 then
      let delay := match r.retryAfterHeader with
        | some secs => secs * 1000
        | none => ENV_API_RATE_LIMIT_DELAY
      let retried := makeRequest rest
      { attempts := retried.attempts + 1, delays := delay :: retried.delays,
        result := retried.result }
    else if responseOk r then
      { attempts := 1, delays := [], result := Except.ok r.body }
    else
      { attempts := 1, delays := [],
        result := Except.error ("HTTP " ++ toString r.status ++ ": " ++ r.statusText) }

/-- One entry of the places array in the server's nearby-places
response (snake_case wire format; distance is in kilometers). -/
structure ApiPlace where
  id : String
  name : String
  type : String
  address : String
  lat : ℚ
  lng : ℚ
  distance : ℚ
  rating : Option ℚ := none
  price_level : Option ℕ := none
  image_url : Option String := none

/-- The query echo of the nearby-places response. -/
structure NearbyQueryEcho where
  lat : ℚ
  lng : ℚ
  radius : ℚ
  type : String
  limit : ℕ

/-- The nearby-places response body.  The places array is optional to
model a payload from which the field is missing (the source guards on
its truthiness). -/
structure NearbyPlacesResp where
  places : Option (List ApiPlace)
  total : ℕ := 0
  query : Option NearbyQueryEcho := none

/-- The per-place transformation getNearbyPlaces applies to the server
payload: field renames, kilometers-to-meters conversion, and wrapping
the single category string into a tag list. -/
def transformNearbyPlace (p : ApiPlace) : Place :=
  { id := p.id
    name := p.name
    address := p.address
    location := { latitude := p.lat, longitude := p.lng }
    rating := p.rating
    types := some [p.type]
    placeId := some p.id
    distance := some (p.distance * 1000)
    priceLevel := p.price_level
    photos := match p.image_url with
      | some u => some [u]
      | none => none }

/-- getNearbyPlaces: issues the request and, on success, maps the places
array into the Place shape; a missing (falsy) places field and an empty
array both yield the empty list; request errors are rethrown. -/
def getNearbyPlaces (responses : List (HttpResponse NearbyPlacesResp)) :
    Except String (List Place) :=
  match (makeRequest responses).result with
  | Except.ok resp =>
    match resp.places with
    | some l => Except.ok (l.map transformNearbyPlace)
    | none => Except.ok []
  | Except.error e => Except.error e

/-- The hours sub-object of the place-details response. -/
structure HoursInfo where
  monday : String
  tuesday : String
  wednesday : String
  thursday : String
  friday : String
  saturday : String
  sunday : String

/-- The place-details response body. -/
structure PlaceDetailsResp where
  id : String
  name : String
  type : String
  address : String
  lat : ℚ
  lng : ℚ
  phone : Option String := none
  website : Option String := none
  rating : Option ℚ := none
  price_level : Option ℕ := none
  hours : Option HoursInfo := none
  image_url : Option String := none
  description : Option String := none

/-- The transformation getPlaceDetails applies to a (truthy) response:
field renames plus building the human-readable weekly schedule from the
hours sub-object. -/
def transformPlaceDetails (resp : PlaceDetailsResp) : Place :=
  { id := resp.id
    name := resp.name
    address := resp.address
    location := { latitude := resp.lat, longitude := resp.lng }
    rating := resp.rating
    types := some [resp.type]
    placeId := some resp.id
    phoneNumber := resp.phone
    website := resp.website
    priceLevel := resp.price_level
    photos := match resp.image_url with
      | some u => some [u]
      | none => none
    openingHours := match resp.hours with
      | some h => some
          { open_now := true
            weekday_text := some
              ["Monday: " ++ h.monday,
               "Tuesday: " ++ h.tuesday,
               "Wednesday: " ++ h.wednesday,
               "Thursday: " ++ h.thursday,
               "Friday: " ++ h.friday,
               "Saturday: " ++ h.saturday,
               "Sunday: " ++ h.sunday] }
      | none => none }

/-- getPlaceDetails: issues the request; on a successful response with a
truthy body, transforms it; on a null body returns null; request errors
(including non-2xx HTTP statuses raised inside makeRequest) are
rethrown to the caller. -/
def getPlaceDetails (responses : List (HttpResponse (Option PlaceDetailsResp))) :
    Except String (Option Place) :=
  match (makeRequest responses).result with
  | Except.ok (some resp) => Except.ok (some (transformPlaceDetails resp))
  | Except.ok none => Except.ok none
  | Except.error e => Except.error e

/- ============ Location provider (app/services/location.ts) ============ -/

/-- The two mobile platforms the provider branches on. -/
inductive Platform where
  | ios
  | android
deriving DecidableEq

/-- Outcome of the iOS Geolocation.requestAuthorization call:
the authorization string it resolves to, or a rejection. -/
inductive IOSAuthOutcome where
  | granted
  | denied
  | restricted
  | disabled
  | failure
deriving DecidableEq

/-- requestIOSPermission: maps the iOS authorization outcome into the
four-value vocabulary; any unrecognized outcome and any thrown error are
treated as denied with canAskAgain true. -/
def requestIOSPermission : IOSAuthOutcome → LocationPermission
  | IOSAuthOutcome.granted => { status := PermStatus.granted, canAskAgain := true }
  | IOSAuthOutcome.denied => { status := PermStatus.denied, canAskAgain := true }
  | IOSAuthOutcome.restricted => { status := PermStatus.restricted, canAskAgain := false }
  | IOSAuthOutcome.disabled => { status := PermStatus.denied, canAskAgain := true }
  | IOSAuthOutcome.failure => { status := PermStatus.denied, canAskAgain := true }

/-- Outcome of the Android PermissionsAndroid.request call. -/
inductive AndroidReqOutcome where
  | granted
  | denied
  | neverAskAgain
  | other
  | failure
deriving DecidableEq

/-- requestAndroidPermission: maps the Android request outcome into the
four-value vocabulary; the default case and any thrown error are treated
as denied with canAskAgain true. -/
def requestAndroidPermission : AndroidReqOutcome → LocationPermission
  | AndroidReqOutcome.granted => { status := PermStatus.granted, canAskAgain := true }
  | AndroidReqOutcome.denied => { status := PermStatus.denied, canAskAgain := true }
  | AndroidReqOutcome.neverAskAgain => { status := PermStatus.never_ask_again, canAskAgain := false }
  | AndroidReqOutcome.other => { status := PermStatus.denied, canAskAgain := true }
  | AndroidReqOutcome.failure => { status := PermStatus.denied, canAskAgain := true }

/-- requestLocationPermission: platform dispatch. -/
def requestLocationPermission (p : Platform) (ios : IOSAuthOutcome)
    (android : AndroidReqOutcome) : LocationPermission :=
  match p with
  | Platform.ios => requestIOSPermission ios
  | Platform.android => requestAndroidPermission android

/-- checkAndroidPermissionStatus: a non-prompting PermissionsAndroid.check;
the Except.error case models the catch branch. -/
def checkAndroidPermissionStatus : Except Unit Bool → LocationPermission
  | Except.ok true => { status := PermStatus.granted, canAskAgain := true }
  | Except.ok false => { status := PermStatus.denied, canAskAgain := true }
  | Except.error _ => { status := PermStatus.denied, canAskAgain := true }

/-- checkIOSPermissionStatus: probes with a short-timeout position fetch;
success means granted, and every error code (1 = denied, 2 = unavailable,
anything else) resolves to denied with canAskAgain true. -/
def checkIOSPermissionStatus : Except ℕ Unit → LocationPermission
  | Except.ok _ => { status := PermStatus.granted, canAskAgain := true }
  | Except.error 1 => { status := PermStatus.denied, canAskAgain := true }
  | Except.error 2 => { status := PermStatus.denied, canAskAgain := true }
  | Except.error _ => { status := PermStatus.denied, canAskAgain := true }

/-- checkPermissionStatus: platform dispatch. -/
def checkPermissionStatus (p : Platform) (iosProbe : Except ℕ Unit)
    (androidCheck : Except Unit Bool) : LocationPermission :=
  match p with
  | Platform.ios => checkIOSPermissionStatus iosProbe
  | Platform.android => checkAndroidPermissionStatus androidCheck

/-- getDefaultLocation returns ENV.DEFAULT_LOCATION. -/
def getDefaultLocation : Location := ENV_DEFAULT_LOCATION

/-- The message classification the service applies to geolocation error
codes in getCurrentLocation. -/
def geoErrorMessage : ℕ → String
  | 1 => "Location permission denied"
  | 2 => "Location unavailable"
  | 3 => "Location request timed out"
  | _ => "Unknown location error"

/- ---- the location watcher state machine (C8) ---- -/

/-- Combined state of the LocationService singleton and of the platform
geolocation module: the service's cached permission flag and stored
watch handle, plus the set of watch subscriptions currently registered
with the platform (each registered subscription fires its onUpdate
callback once per position change) and the next fresh handle. -/
structure WatcherState where
  hasLocationPermission : Bool
  locationWatcherId : Option ℕ
  activeWatches : List ℕ
  nextWatchId : ℕ

/-- The service at module load: no permission, no watcher, nothing
registered with the platform. -/
def initialWatcherState : WatcherState :=
  { hasLocationPermission := false, locationWatcherId := none,
    activeWatches := [], nextWatchId := 0 }

/-- stopLocationWatching: when a handle is stored, clears that watch with
the platform and forgets the handle; otherwise does nothing. -/
def svcStopLocationWatching (w : WatcherState) : WatcherState :=
  match w.locationWatcherId with
  | none => w
  | some i =>
    { w with
      activeWatches := w.activeWatches.erase i
      locationWatcherId := none }

/-- startLocationWatching: first stops any existing watcher, then
registers a fresh watch with the platform and stores its handle. -/
def svcStartLocationWatching (w : WatcherState) : WatcherState :=
  let w1 := (match w.locationWatcherId with
    | some _ => svcStopLocationWatching w
    | none => w)
  { w1 with
    locationWatcherId := some w1.nextWatchId
    activeWatches := w1.activeWatches ++ [w1.nextWatchId]
    nextWatchId := w1.nextWatchId + 1 }

/-- The watch-related operations a caller can interleave. -/
inductive WatchOp where
  | start
  | stop
deriving DecidableEq

/-- Apply one watch operation. -/
def applyWatchOp (w : WatcherState) : WatchOp → WatcherState
  | WatchOp.start => svcStartLocationWatching w
  | WatchOp.stop => svcStopLocationWatching w

/-- Run a sequence of watch operations from a state. -/
def runWatchOps : WatcherState → List WatchOp → WatcherState
  | w, [] => w
  | w, op :: ops => runWatchOps (applyWatchOp w op) ops

/-- How many onUpdate callbacks a single simulated position change
triggers: one per watch subscription registered with the platform. -/
def updateCallbacksPerPositionChange (w : WatcherState) : ℕ :=
  w.activeWatches.length

/- ============ Location/places store (app/store/locationStore.ts) ============ -/

/-- The sort key used by every place sort in the source:
place.distance || 0. -/
def distKey (p : Place) : ℚ := p.distance.getD 0

/-- One insertion step of the distance sort. -/
def insertByDist (p : Place) : List Place → List Place
  | [] => [p]
  | q :: rest =>
    if distKey p ≤ distKey q then p :: q :: rest else q :: insertByDist p rest

/-- Models Array.prototype.sort with the comparator
(a, b) => (a.distance || 0) - (b.distance || 0): the result is the input
reordered into ascending order of the distance key.  (The stated claims
do not depend on how ties are ordered.) -/
def sortByDistance : List Place → List Place
  | [] => []
  | p :: rest => insertByDist p (sortByDistance rest)

/-- The ambient world a store action runs against: whether the GPS
availability probe succeeds, the outcome of a one-shot geolocation fix
(a Location or a geolocation error code), and the outcome the places
API yields for a query (location, category, radius). -/
structure StoreEnv where
  gpsAvailable : Bool
  currentPos : Except ℕ Location
  placesApi : Location → String → ℚ → Except String (List Place)

/-- locationService.getCurrentLocation: a successful fix is resolved
as-is; a geolocation failure is rejected with the classified message. -/
def svcGetCurrentLocation (e : StoreEnv) : Except String Location :=
  match e.currentPos with
  | Except.ok loc => Except.ok loc
  | Except.error code => Except.error (geoErrorMessage code)

/-- locationService.getNearbyPlaces: forwards to the API service and
sorts the returned places by distance (closest first); errors are
rethrown. -/
def svcGetNearbyPlaces (e : StoreEnv) (loc : Location) (type : String)
    (radius : ℚ) : Except String (List Place) :=
  (e.placesApi loc type radius).map sortByDistance

/-- The client-side store state (LocationState). -/
structure StoreState where
  currentLocation : Option Location
  nearbyPlaces : List Place
  allPlaces : List Place
  placesByCategory : List (String × List Place)
  permissionStatus : Option LocationPermission
  isLoading : Bool
  error : Option String
  isLocationWatching : Bool
  selectedPlaceType : String
  searchRadius : ℚ
  useDefaultLocation : Bool
  isPermissionRequestPhase : Bool

/-- The store's initialState. -/
def initialStoreState : StoreState :=
  { currentLocation := none
    nearbyPlaces := []
    allPlaces := []
    placesByCategory := []
    permissionStatus := none
    isLoading := false
    error := none
    isLocationWatching := false
    selectedPlaceType := NEARBY_PLACES_CONFIG.DEFAULT_TYPE
    searchRadius := NEARBY_PLACES_CONFIG.DEFAULT_RADIUS
    useDefaultLocation := false
    isPermissionRequestPhase := false }

/-- verifyLocationConsistency: with no current location, answers null and
changes nothing; in default mode, a current location whose latitude or
longitude drifts from the default by 0.001 degrees or more is corrected
to the default (and the default is answered); otherwise the current
location is answered unchanged.  Returns the answered location together
with the possibly corrected state. -/
def verifyLocationConsistency (s : StoreState) : Option Location × StoreState :=
  match s.currentLocation with
  | none => (none, s)
  | some cur =>
    if s.useDefaultLocation then
      if |cur.latitude - getDefaultLocation.latitude| < 0.001 ∧
         |cur.longitude - getDefaultLocation.longitude| < 0.001 then
        (some cur, s)
      else
        (some getDefaultLocation, { s with currentLocation := some getDefaultLocation })
    else
      (some cur, s)

/-- fetchNearbyPlaces: verifies the location (setting the guard error and
finishing when none is available), clears both place lists, fetches the
requested (or selected) category at the verified location, stores the
places on success, and on failure stores the error message and leaves
the place list cleared; the loading flag is always lowered at the end. -/
def fetchNearbyPlaces (e : StoreEnv) (type? : Option String) (radius? : Option ℚ)
    (s : StoreState) : StoreState :=
  match verifyLocationConsistency s with
  | (none, s0) => { s0 with error := some "No location available", isLoading := false }
  | (some v, s0) =>
    let s1 := { s0 with
      isLoading := true
      error := none
      nearbyPlaces := []
      allPlaces := [] }
    match svcGetNearbyPlaces e v (type?.getD s0.selectedPlaceType)
        (radius?.getD s0.searchRadius) with
    | Except.ok places => { s1 with nearbyPlaces := places, isLoading := false }
    | Except.error msg => { s1 with
        error := some msg
        nearbyPlaces := []
        isLoading := false }

/-- The per-iteration body of the fetch-all loop: each category's fetch
is tried on its own, successes are pushed onto the accumulator and a
failure is only logged, so the loop continues with the next category. -/
def collectAllPlaces (e : StoreEnv) (v : Location) (radius : ℚ) :
    List String → List Place
  | [] => []
  | t :: rest =>
    match svcGetNearbyPlaces e v t radius with
    | Except.ok places => places ++ collectAllPlaces e v radius rest
    | Except.error _ => collectAllPlaces e v radius rest

/-- The list the fetch-all loop would accumulate for one category: the
fetched places on success, nothing on failure. -/
def categoryResult (e : StoreEnv) (v : Location) (t : String) (radius : ℚ) :
    List Place :=
  match svcGetNearbyPlaces e v t radius with
  | Except.ok places => places
  | Except.error _ => []

/-- The JavaScript de-duplication
self.filter((place, index, self) => index === self.findIndex(p => p.id === place.id)):
the callback keeps the element at position i exactly when the first
index in the whole array holding its place id is i itself.  arr is the
whole array, i the position of the current element. -/
def jsFilterIdx (arr : List Place) : ℕ → List Place → List Place
  | _, [] => []
  | i, p :: rest =>
    if arr.findIdx (fun q => q.id == p.id) = i
    then p :: jsFilterIdx arr (i + 1) rest
    else jsFilterIdx arr (i + 1) rest

/-- De-duplication by place id as performed in fetchAllNearbyPlaces. -/
def uniqueById (arr : List Place) : List Place := jsFilterIdx arr 0 arr

/-- First-occurrence de-duplication in accumulator style: keeps an
element exactly when its id has not been seen earlier.  Used as the
reasoning-friendly characterization of uniqueById. -/
def keepFirstById : List String → List Place → List Place
  | _, [] => []
  | seen, p :: rest =>
    if p.id ∈ seen then keepFirstById seen rest
    else p :: keepFirstById (p.id :: seen) rest

/-- fetchAllNearbyPlaces: verifies the location (setting the guard error
and returning when none is available), clears both place lists, loops
over every supported place type fetching each category at the verified
location with per-iteration error catching, removes duplicate ids
keeping first occurrences, sorts the consolidated list by distance and
publishes it as both allPlaces and nearbyPlaces. -/
def fetchAllNearbyPlaces (e : StoreEnv) (radius? : Option ℚ)
    (s : StoreState) : StoreState :=
  match verifyLocationConsistency s with
  | (none, s0) => { s0 with error := some "No location available" }
  | (some v, s0) =>
    let s1 := { s0 with
      isLoading := true
      error := none
      nearbyPlaces := []
      allPlaces := [] }
    let allFetched := collectAllPlaces e v (radius?.getD s0.searchRadius)
      SUPPORTED_PLACE_TYPES
    let uniquePlaces := sortByDistance (uniqueById allFetched)
    { s1 with
      allPlaces := uniquePlaces
      nearbyPlaces := uniquePlaces
      isLoading := false }

/-- The store's getCurrentLocation action: raises the loading flag,
requests a one-shot fix, stores it and fetches the selected category on
success; on failure only records the classified error message (the
current location is not touched); the loading flag is lowered at the
end either way. -/
def storeGetCurrentLocation (e : StoreEnv) (s : StoreState) : StoreState :=
  let s1 := { s with isLoading := true, error := none }
  match svcGetCurrentLocation e with
  | Except.ok loc =>
    let s2 := { s1 with currentLocation := some loc }
    let s3 := fetchNearbyPlaces e none none s2
    { s3 with isLoading := false }
  | Except.error msg => { s1 with error := some msg, isLoading := false }

/-- The store's startLocationWatching action as far as store state is
concerned: a no-op without a current location, otherwise marks watching
active (the position-update callbacks it registers are not fired in
this sequential model). -/
def storeStartLocationWatching (s : StoreState) : StoreState :=
  match s.currentLocation with
  | none => s
  | some _ => { s with isLocationWatching := true }

/-- The store's stopLocationWatching action on store state. -/
def storeStopLocationWatching (s : StoreState) : StoreState :=
  { s with isLocationWatching := false }

/-- forceMapRefresh: re-publishes the current location (a clone of the
same value) when one is set. -/
def forceMapRefresh (s : StoreState) : StoreState :=
  match s.currentLocation with
  | none => s
  | some loc => { s with currentLocation := some loc }

/-- toggleUseDefaultLocation.  Toggling into default mode stops
watching, pins the location to the default and fetches all categories.
Toggling into live mode probes GPS availability and requests a fix; on
success it stores the live location, starts watching and fetches the
selected category; on any failure it rolls back to default mode with an
explanatory error, stops watching and fetches all categories at the
default location. -/
def toggleUseDefaultLocation (e : StoreEnv) (s : StoreState) : StoreState :=
  if !s.useDefaultLocation then
    let s1 := storeStopLocationWatching s
    let s2 := { s1 with
      currentLocation := some getDefaultLocation
      useDefaultLocation := true
      isLoading := false
      error := none }
    forceMapRefresh (fetchAllNearbyPlaces e none s2)
  else
    let s1 := { s with isLoading := true, error := none }
    let gpsResult := (if e.gpsAvailable then svcGetCurrentLocation e
      else Except.error "GPS is not available on this device")
    match gpsResult with
    | Except.ok loc =>
      let s2 := { s1 with
        currentLocation := some loc
        useDefaultLocation := false
        isLoading := false
        error := none }
      let s3 := storeStartLocationWatching s2
      forceMapRefresh (fetchNearbyPlaces e none none s3)
    | Except.error msg =>
      let s2 := { s1 with
        currentLocation := some getDefaultLocation
        useDefaultLocation := true
        isLoading := false
        error := some ("Failed to get your current location: " ++ msg ++
          ". Reverted to default location.") }
      let s3 := storeStopLocationWatching s2
      forceMapRefresh (fetchAllNearbyPlaces e none s3)

/-- retryFetchPlaces: re-fetches the selected category at the stored
radius when a location is set. -/
def retryFetchPlaces (e : StoreEnv) (s : StoreState) : StoreState :=
  match s.currentLocation with
  | none => s
  | some _ => fetchNearbyPlaces e (some s.selectedPlaceType) (some s.searchRadius) s

/-- The claim C3 phrase "toggling back to default": a second toggle is
issued only when the first one left the store in live mode (after a
failed live switch the store has already rolled back to default mode
and is not toggled again). -/
def toggleBackToDefault (e : StoreEnv) (s : StoreState) : StoreState :=
  if s.useDefaultLocation then s else toggleUseDefaultLocation e s

/- ---- Concrete example values used by witnesses and counterexamples ---- -/

/-- Concrete run for C4: a 429 with Retry-After 7 followed by a 200. -/
def respC4a : HttpResponse ℕ :=
  { status := 429, statusText := "Too Many Requests", retryAfterHeader := some 7, body := 0 }

def respC4b : HttpResponse ℕ :=
  { status := 200, statusText := "OK", body := 5 }

/-- Concrete server payload for C5: one cafe 1.2 km away. -/
def apiPlaceC5 : ApiPlace :=
  { id := "p1", name := "Cafe One", type := "cafe", address := "1 Main St",
    lat := 37.7, lng := -122.4, distance := 1.2 }

def respC5 : NearbyPlacesResp := { places := some [apiPlaceC5] }

def httpC5 : HttpResponse NearbyPlacesResp :=
  { status := 200, statusText := "OK", body := respC5 }

/-- A 404 answer for an absent place resource. -/
def http404 : HttpResponse (Option PlaceDetailsResp) :=
  { status := 404, statusText := "Not Found", body := none }

/-- Concrete place-details payload for C6 carrying an hours sub-object. -/
def hrsC6 : HoursInfo :=
  { monday := "9:00 AM - 5:00 PM", tuesday := "9:00 AM - 5:00 PM",
    wednesday := "9:00 AM - 5:00 PM", thursday := "9:00 AM - 5:00 PM",
    friday := "9:00 AM - 5:00 PM", saturday := "10:00 AM - 4:00 PM",
    sunday := "Closed" }

def detailsC6 : PlaceDetailsResp :=
  { id := "p1", name := "Cafe One", type := "cafe", address := "1 Main St",
    lat := 37.7, lng := -122.4, hours := some hrsC6 }

def httpC6 : HttpResponse (Option PlaceDetailsResp) :=
  { status := 200, statusText := "OK", body := some detailsC6 }

/-- The invariant tying the service's stored watch handle to the
platform's subscription set: either no handle is stored and nothing is
registered, or the stored handle is the single registered subscription. -/
def WatcherInv (w : WatcherState) : Prop :=
  (w.locationWatcherId = none ∧ w.activeWatches = [])
  ∨ (∃ i, w.locationWatcherId = some i ∧ w.activeWatches = [i])

/-- The merge the specification describes for fetchAllNearbyPlaces: the
per-category results of every supported place type, in category order,
with a failed category contributing nothing (so a failure does not
abort the remaining categories). -/
def mergedCategoryResults (e : StoreEnv) (v : Location) (radius : ℚ) : List Place :=
  SUPPORTED_PLACE_TYPES.flatMap (fun t => categoryResult e v t radius)

/-- Concrete places for the store claims: two distinct ids plus a
duplicate of the first id at a different distance. -/
def placeA : Place :=
  { id := "a", name := "Alpha", address := "1 A St",
    location := { latitude := 1, longitude := 2 }, distance := some 2000 }

def placeB : Place :=
  { id := "b", name := "Beta", address := "2 B St",
    location := { latitude := 3, longitude := 4 }, distance := some 500 }

def placeA2 : Place :=
  { id := "a", name := "Alpha again", address := "1 A St",
    location := { latitude := 1, longitude := 2 }, distance := some 1500 }

/-- Concrete environment for C1: the restaurant fetch fails, cafe and
zoo succeed (the zoo result duplicating a cafe place id), every other
category is empty. -/
def envC1 : StoreEnv :=
  { gpsAvailable := true
    currentPos := Except.ok getDefaultLocation
    placesApi := fun _ t _ =>
      if t = "restaurant" then Except.error "HTTP 500: Internal Server Error"
      else if t = "cafe" then Except.ok [placeA, placeB]
      else if t = "zoo" then Except.ok [placeA2]
      else Except.ok [] }

/-- Concrete store in default mode pinned to the default location. -/
def storeC1 : StoreState :=
  { initialStoreState with
    currentLocation := some getDefaultLocation
    useDefaultLocation := true }

/-- Concrete environment whose location fix times out (code 3) and whose
places API always fails. -/
def envFail : StoreEnv :=
  { gpsAvailable := false
    currentPos := Except.error 3
    placesApi := fun _ _ _ => Except.error "Network request failed" }

/-- Concrete store holding places from an earlier successful fetch
(live mode, location set). -/
def storeC2 : StoreState :=
  { initialStoreState with
    currentLocation := some getDefaultLocation
    nearbyPlaces := [placeA] }

/-- A current location drifted from the default by 0.0005 degrees of
latitude (strictly below the 0.001 correction threshold). -/
def locC10 : Location := { latitude := 37.7754, longitude := -122.4194 }

/-- Concrete store in default mode whose location carries sub-threshold
drift. -/
def storeC10 : StoreState :=
  { initialStoreState with
    currentLocation := some locC10
    useDefaultLocation := true }

/- ===================== Theorems ===================== -/

/- ---- Claim C4: 429 handling in makeRequest ---- -/

/-- Claim C4: for every request whose response has HTTP status 429,
makeRequest waits the server-supplied Retry-After header value (in
seconds, converted to milliseconds) or the fixed default rate-limit
delay when the header is absent, and then attempts exactly one retry of
the same request: the computation continues as exactly one fresh
makeRequest of the remaining attempts, and when that retry is not
itself rate-limited the total attempt count is exactly two. -/
theorem makeRequest_429_retries_once {α : Type} (r : HttpResponse α)
    (rest : List (HttpResponse α)) (h : r.status = 429) :
    makeRequest (r :: rest) =
      { attempts := (makeRequest rest).attempts + 1
        delays := (match r.retryAfterHeader with
          | some secs => secs * 1000
          | none => ENV_API_RATE_LIMIT_DELAY) :: (makeRequest rest).delays
        result := (makeRequest rest).result }
    ∧ (∀ (r2 : HttpResponse α) (rest2 : List (HttpResponse α)),
        rest = r2 :: rest2 → r2.status ≠ 429 →
        (makeRequest (r :: rest)).attempts = 2) := by
  constructor
  · simp only [makeRequest, h, if_pos]
  · intro r2 rest2 hrest hne
    subst hrest
    by_cases hok : responseOk r2 <;>
      simp [makeRequest, h, hne, hok]

/-- Witness for C4 at the concrete run: one 7000 ms wait, two attempts,
and the retried request's successful result. -/
theorem makeRequest_429_retries_once_witness :
    makeRequest [respC4a, respC4b] =
      { attempts := 2, delays := [7000], result := Except.ok 5 }
    ∧ (makeRequest [respC4a, respC4b]).attempts = 2 := by
  have h := makeRequest_429_retries_once respC4a [respC4b] rfl
  refine ⟨?_, h.2 respC4b [] rfl (by decide)⟩
  rw [h.1]
  rfl

/- ---- Claim C5: getNearbyPlaces response mapping ---- -/

/-- Claim C5: on a successful response, getNearbyPlaces maps the places
payload elementwise, each produced Place carrying distance equal to the
server-reported kilometer distance times 1000 and a types list that is
exactly the singleton of the server type string; an empty or missing
places payload resolves to the empty list rather than an error. -/
theorem getNearbyPlaces_maps_fields (responses : List (HttpResponse NearbyPlacesResp))
    (resp : NearbyPlacesResp)
    (h : (makeRequest responses).result = Except.ok resp) :
    getNearbyPlaces responses = Except.ok ((resp.places.getD []).map transformNearbyPlace)
    ∧ (∀ ap : ApiPlace,
        (transformNearbyPlace ap).distance = some (ap.distance * 1000)
        ∧ (transformNearbyPlace ap).types = some [ap.type])
    ∧ ((resp.places = none ∨ resp.places = some []) →
        getNearbyPlaces responses = Except.ok []) := by
  refine ⟨?_, fun ap => ⟨rfl, rfl⟩, ?_⟩
  · unfold getNearbyPlaces
    rw [h]
    cases hp : resp.places <;> simp [hp]
  · intro hp
    unfold getNearbyPlaces
    rw [h]
    rcases hp with hp | hp <;> simp [hp]

/-- Witness for C5 at the concrete payload. -/
theorem getNearbyPlaces_maps_fields_witness :
    getNearbyPlaces [httpC5] = Except.ok ((respC5.places.getD []).map transformNearbyPlace)
    ∧ (∀ ap : ApiPlace,
        (transformNearbyPlace ap).distance = some (ap.distance * 1000)
        ∧ (transformNearbyPlace ap).types = some [ap.type])
    ∧ ((respC5.places = none ∨ respC5.places = some []) →
        getNearbyPlaces [httpC5] = Except.ok []) :=
  getNearbyPlaces_maps_fields [httpC5] respC5 rfl

/- ---- Claim C6: getPlaceDetails and absent resources ---- -/

/-- Counterexample to claim C6 as stated: when the server answers 404
for an absent place id, getPlaceDetails raises the HTTP error (rethrown
from makeRequest) instead of returning null. -/
theorem getPlaceDetails_absent_resource_counterexample :
    getPlaceDetails [http404] = Except.error "HTTP 404: Not Found"
    ∧ getPlaceDetails [http404] ≠ Except.ok none := by
  have h : getPlaceDetails [http404] = Except.error "HTTP 404: Not Found" := rfl
  exact ⟨h, by rw [h]; simp⟩

/-- Claim C6 as amended: getPlaceDetails rethrows request errors (in
particular the HTTP 404 raised for an absent resource) and returns null
only when the request succeeds with a null body; for every successful
response carrying an hours sub-object, the returned Place's
openingHours.weekday_text is the seven-entry human-readable weekly
schedule built from the hours fields. -/
theorem getPlaceDetails_amended (responses : List (HttpResponse (Option PlaceDetailsResp))) :
    (∀ msg, (makeRequest responses).result = Except.error msg →
        getPlaceDetails responses = Except.error msg)
    ∧ ((makeRequest responses).result = Except.ok none →
        getPlaceDetails responses = Except.ok none)
    ∧ (∀ (resp : PlaceDetailsResp) (hrs : HoursInfo),
        (makeRequest responses).result = Except.ok (some resp) →
        resp.hours = some hrs →
        ∃ pl : Place, getPlaceDetails responses = Except.ok (some pl)
          ∧ pl.openingHours = some
              { open_now := true
                weekday_text := some
                  ["Monday: " ++ hrs.monday, "Tuesday: " ++ hrs.tuesday,
                   "Wednesday: " ++ hrs.wednesday, "Thursday: " ++ hrs.thursday,
                   "Friday: " ++ hrs.friday, "Saturday: " ++ hrs.saturday,
                   "Sunday: " ++ hrs.sunday] }) := by
  refine ⟨?_, ?_, ?_⟩
  · intro msg h
    unfold getPlaceDetails
    rw [h]
  · intro h
    unfold getPlaceDetails
    rw [h]
  · intro resp hrs h hhrs
    refine ⟨transformPlaceDetails resp, ?_, ?_⟩
    · unfold getPlaceDetails
      rw [h]
    · simp [transformPlaceDetails, hhrs]

/-- Witness for the amended C6 at a concrete successful response. -/
theorem getPlaceDetails_amended_witness :
    ∃ pl : Place, getPlaceDetails [httpC6] = Except.ok (some pl)
      ∧ pl.openingHours = some
          { open_now := true
            weekday_text := some
              ["Monday: " ++ hrsC6.monday, "Tuesday: " ++ hrsC6.tuesday,
               "Wednesday: " ++ hrsC6.wednesday, "Thursday: " ++ hrsC6.thursday,
               "Friday: " ++ hrsC6.friday, "Saturday: " ++ hrsC6.saturday,
               "Sunday: " ++ hrsC6.sunday] } :=
  (getPlaceDetails_amended [httpC6]).2.2 detailsC6 hrsC6 rfl rfl

/- ---- Helper lemmas: the findIndex-based de-duplication ---- -/

/-- findIdx lands exactly on the position after front iff no element of
front satisfies the predicate (given that the element there does). -/
theorem findIdx_eq_length_iff (pred : Place → Bool) (p : Place) (rest : List Place)
    (hp : pred p = true) :
    ∀ front : List Place,
      ((front ++ p :: rest).findIdx pred = front.length ↔ ∀ q ∈ front, pred q = false) := by
  intro front
  induction front with
  | nil => simp [List.findIdx_cons, hp]
  | cons a front2 ih =>
    by_cases ha : pred a = true
    · simp [List.findIdx_cons, ha]
    · rw [Bool.not_eq_true] at ha
      simp [List.findIdx_cons, ha, ih]

/-- The JavaScript filter-by-findIndex de-duplication agrees with
first-occurrence de-duplication, relative to a seen set describing the
ids of the already-scanned prefix. -/
theorem jsFilterIdx_eq_keepFirstById :
    ∀ (rest front : List Place) (seen : List String),
      (∀ x : String, x ∈ seen ↔ x ∈ front.map Place.id) →
      jsFilterIdx (front ++ rest) front.length rest = keepFirstById seen rest := by
  intro rest
  induction rest with
  | nil => intro front seen _; rfl
  | cons p rest2 ih =>
    intro front seen hseen
    have hp : (fun q : Place => q.id == p.id) p = true := by simp
    have hchar := findIdx_eq_length_iff (fun q => q.id == p.id) p rest2 hp front
    have hlen : (front ++ [p]).length = front.length + 1 := by simp
    have happ : front ++ p :: rest2 = (front ++ [p]) ++ rest2 := by simp
    by_cases hmem : p.id ∈ seen
    · have hfalse : ¬((front ++ p :: rest2).findIdx (fun q => q.id == p.id) = front.length) := by
        rw [hchar]
        intro hall
        rcases List.mem_map.mp ((hseen p.id).mp hmem) with ⟨q, hq, hqid⟩
        have hfq := hall q hq
        rw [hqid] at hfq
        simp at hfq
      rw [jsFilterIdx, if_neg hfalse, keepFirstById, if_pos hmem]
      have hseen2 : ∀ x : String, x ∈ seen ↔ x ∈ (front ++ [p]).map Place.id := by
        intro x
        constructor
        · intro hx
          have := (hseen x).mp hx
          simp only [List.map_append, List.mem_append]
          exact Or.inl this
        · intro hx
          simp only [List.map_append, List.mem_append, List.map_cons, List.map_nil,
            List.mem_singleton] at hx
          rcases hx with hx | hx
          · exact (hseen x).mpr hx
          · rw [hx]; exact hmem
      have := ih (front ++ [p]) seen hseen2
      rw [hlen] at this
      rw [happ]
      exact this
    · have htrue : (front ++ p :: rest2).findIdx (fun q => q.id == p.id) = front.length := by
        rw [hchar]
        intro q hq
        rw [beq_eq_false_iff_ne]
        intro hqp
        exact hmem ((hseen p.id).mpr (List.mem_map.mpr ⟨q, hq, hqp⟩))
      rw [jsFilterIdx, if_pos htrue, keepFirstById, if_neg hmem]
      congr 1
      have hseen2 : ∀ x : String, x ∈ p.id :: seen ↔ x ∈ (front ++ [p]).map Place.id := by
        intro x
        rw [List.mem_cons, hseen x, List.map_append, List.mem_append]
        simp only [List.map_cons, List.map_nil, List.mem_singleton, List.mem_cons,
          List.not_mem_nil, or_false]
        exact or_comm
      have := ih (front ++ [p]) (p.id :: seen) hseen2
      rw [hlen] at this
      rw [happ]
      exact this

/-- uniqueById is plain first-occurrence de-duplication. -/
theorem uniqueById_eq_keepFirstById (arr : List Place) :
    uniqueById arr = keepFirstById [] arr := by
  have := jsFilterIdx_eq_keepFirstById arr [] [] (by simp)
  simpa [uniqueById] using this

/-- Membership in the de-duplicated list: exactly the elements that are
the first occurrence of their id (and whose id is not in the seen set). -/
theorem mem_keepFirstById (p : Place) :
    ∀ (l : List Place) (seen : List String),
      p ∈ keepFirstById seen l
        ↔ (p.id ∉ seen ∧ l.find? (fun q => q.id == p.id) = some p) := by
  intro l
  induction l with
  | nil => intro seen; simp [keepFirstById]
  | cons q l2 ih =>
    intro seen
    by_cases hq : q.id ∈ seen
    · rw [keepFirstById, if_pos hq, ih seen]
      constructor
      · rintro ⟨hps, hf⟩
        have hne : ¬((fun q2 : Place => q2.id == p.id) q = true) := by
          simp only [beq_iff_eq]
          intro he
          exact hps (he ▸ hq)
        exact ⟨hps, by rw [@List.find?_cons_of_neg Place (fun q2 => q2.id == p.id) q l2 hne]; exact hf⟩
      · rintro ⟨hps, hf⟩
        have hne : ¬((fun q2 : Place => q2.id == p.id) q = true) := by
          simp only [beq_iff_eq]
          intro he
          exact hps (he ▸ hq)
        exact ⟨hps, by rwa [@List.find?_cons_of_neg Place (fun q2 => q2.id == p.id) q l2 hne] at hf⟩
    · rw [keepFirstById, if_neg hq]
      by_cases hqp : q.id = p.id
      · constructor
        · intro hmem
          rcases List.mem_cons.mp hmem with he | hin
          · rw [he]
            exact ⟨hq, @List.find?_cons_of_pos Place (fun q2 => q2.id == q.id) q l2 (by simp)⟩
          · exfalso
            rcases (ih (q.id :: seen)).mp hin with ⟨hns, _⟩
            exact hns (List.mem_cons.mpr (Or.inl hqp.symm))
        · rintro ⟨hps, hf⟩
          rw [@List.find?_cons_of_pos Place (fun q2 => q2.id == p.id) q l2 (by simp [hqp])] at hf
          have hqep : q = p := by injection hf
          exact List.mem_cons.mpr (Or.inl hqep.symm)
      · have hne : ¬((fun q2 : Place => q2.id == p.id) q = true) := by
          simp only [beq_iff_eq]
          exact hqp
        constructor
        · intro hmem
          rcases List.mem_cons.mp hmem with he | hin
          · exfalso
            subst he
            exact hqp rfl
          · rcases (ih (q.id :: seen)).mp hin with ⟨hns, hf⟩
            refine ⟨fun hx => hns (List.mem_cons.mpr (Or.inr hx)), ?_⟩
            rw [@List.find?_cons_of_neg Place (fun q2 => q2.id == p.id) q l2 hne]
            exact hf
        · rintro ⟨hps, hf⟩
          rw [@List.find?_cons_of_neg Place (fun q2 => q2.id == p.id) q l2 hne] at hf
          refine List.mem_cons.mpr (Or.inr ((ih (q.id :: seen)).mpr ⟨?_, hf⟩))
          intro hx
          rcases List.mem_cons.mp hx with h1 | h2
          · exact hqp h1.symm
          · exact hps h2

/-- Every id occurring in the input is represented in the de-duplicated
list. -/
theorem keepFirstById_cover :
    ∀ (l : List Place) (seen : List String) (q : Place),
      q ∈ l → q.id ∉ seen → ∃ p ∈ keepFirstById seen l, p.id = q.id := by
  intro l
  induction l with
  | nil => intro seen q hq _; simp at hq
  | cons r l2 ih =>
    intro seen q hq hns
    by_cases hr : r.id ∈ seen
    · rw [keepFirstById, if_pos hr]
      rcases List.mem_cons.mp hq with he | hin
      · exfalso
        rw [he] at hns
        exact hns hr
      · exact ih seen q hin hns
    · rw [keepFirstById, if_neg hr]
      rcases List.mem_cons.mp hq with he | hin
      · exact ⟨r, List.mem_cons_self _ _, by rw [he]⟩
      · by_cases hqr : q.id = r.id
        · exact ⟨r, List.mem_cons_self _ _, hqr.symm⟩
        · rcases ih (r.id :: seen) q hin
            (fun hx => by
              rcases List.mem_cons.mp hx with h1 | h2
              · exact hqr h1
              · exact hns h2) with ⟨p, hp, hpid⟩
          exact ⟨p, List.mem_cons.mpr (Or.inr hp), hpid⟩

/-- The de-duplicated list carries pairwise distinct ids. -/
theorem keepFirstById_pairwise :
    ∀ (l : List Place) (seen : List String),
      (keepFirstById seen l).Pairwise (fun a b => a.id ≠ b.id) := by
  intro l
  induction l with
  | nil => intro seen; simp [keepFirstById]
  | cons q l2 ih =>
    intro seen
    by_cases hq : q.id ∈ seen
    · rw [keepFirstById, if_pos hq]
      exact ih seen
    · rw [keepFirstById, if_neg hq]
      rw [List.pairwise_cons]
      refine ⟨?_, ih (q.id :: seen)⟩
      intro b hb
      rcases (mem_keepFirstById b l2 (q.id :: seen)).mp hb with ⟨hns, _⟩
      exact fun he => hns (List.mem_cons.mpr (Or.inl he.symm))

/- ---- Helper lemmas: the distance sort ---- -/

/-- Inserting an element yields a permutation of consing it. -/
theorem insertByDist_perm (p : Place) : ∀ l : List Place, (insertByDist p l).Perm (p :: l) := by
  intro l
  induction l with
  | nil => exact List.Perm.refl _
  | cons q rest ih =>
    simp only [insertByDist]
    by_cases h : distKey p ≤ distKey q
    · rw [if_pos h]
    · rw [if_neg h]
      exact (ih.cons q).trans (List.Perm.swap p q rest)

/-- The distance sort permutes its input. -/
theorem sortByDistance_perm : ∀ l : List Place, (sortByDistance l).Perm l := by
  intro l
  induction l with
  | nil => exact List.Perm.refl _
  | cons p rest ih =>
    show (insertByDist p (sortByDistance rest)).Perm (p :: rest)
    exact (insertByDist_perm p (sortByDistance rest)).trans (ih.cons p)

/-- Insertion preserves sortedness by the distance key. -/
theorem insertByDist_sorted (p : Place) :
    ∀ l : List Place, List.Sorted (fun a b : Place => distKey a ≤ distKey b) l →
      List.Sorted (fun a b : Place => distKey a ≤ distKey b) (insertByDist p l) := by
  intro l
  induction l with
  | nil => intro _; simp [insertByDist]
  | cons q rest ih =>
    intro hs
    rw [List.sorted_cons] at hs
    obtain ⟨hq, hrest⟩ := hs
    simp only [insertByDist]
    by_cases h : distKey p ≤ distKey q
    · rw [if_pos h, List.sorted_cons]
      refine ⟨?_, List.sorted_cons.mpr ⟨hq, hrest⟩⟩
      intro b hb
      rcases List.mem_cons.mp hb with he | hin
      · rw [he]; exact h
      · exact le_trans h (hq b hin)
    · rw [if_neg h, List.sorted_cons]
      refine ⟨?_, ih hrest⟩
      intro b hb
      have hb2 : b = p ∨ b ∈ rest := by
        have := (insertByDist_perm p rest).mem_iff.mp hb
        simpa using this
      rcases hb2 with he | hin
      · rw [he]; exact le_of_not_le h
      · exact hq b hin

/-- The distance sort produces a list sorted by ascending distance key. -/
theorem sortByDistance_sorted :
    ∀ l : List Place,
      List.Sorted (fun a b : Place => distKey a ≤ distKey b) (sortByDistance l) := by
  intro l
  induction l with
  | nil => simp [sortByDistance]
  | cons p rest ih =>
    show List.Sorted _ (insertByDist p (sortByDistance rest))
    exact insertByDist_sorted p (sortByDistance rest) ih

/- ---- Helper lemmas: the fetch-all accumulation loop ---- -/

/-- The per-iteration try/catch loop accumulates exactly the merged
per-category results: each failed category contributes nothing and the
loop continues with the remaining categories. -/
theorem collectAllPlaces_eq_flatMap (e : StoreEnv) (v : Location) (radius : ℚ) :
    ∀ ts : List String,
      collectAllPlaces e v radius ts = ts.flatMap (fun t => categoryResult e v t radius) := by
  intro ts
  induction ts with
  | nil => rfl
  | cons t rest ih =>
    have hc : categoryResult e v t radius =
        (match svcGetNearbyPlaces e v t radius with
         | Except.ok places => places
         | Except.error _ => []) := rfl
    simp only [collectAllPlaces, List.flatMap_cons, ih]
    cases h : svcGetNearbyPlaces e v t radius with
    | ok places => rw [hc, h]
    | error msg => rw [hc, h]; simp

/- ---- Helper lemmas: verifyLocationConsistency and the fetch actions ---- -/

/-- In live mode the consistency check answers the current location and
changes nothing. -/
theorem verifyLocationConsistency_live (s : StoreState) (loc : Location)
    (hmode : s.useDefaultLocation = false)
    (hloc : s.currentLocation = some loc) :
    verifyLocationConsistency s = (some loc, s) := by
  unfold verifyLocationConsistency
  rw [hloc, hmode]
  simp

/-- In default mode with the location pinned exactly to the default, the
consistency check answers the default and changes nothing. -/
theorem verifyLocationConsistency_default (s : StoreState)
    (hmode : s.useDefaultLocation = true)
    (hloc : s.currentLocation = some getDefaultLocation) :
    verifyLocationConsistency s = (some getDefaultLocation, s) := by
  unfold verifyLocationConsistency
  rw [hloc, hmode]
  simp only [sub_self, abs_zero]
  simp
  intro h
  exact absurd h (by norm_num)

/-- With any current location set, the consistency check answers a
location, and at most the currentLocation field is corrected. -/
theorem verifyLocationConsistency_of_some (s : StoreState) (loc : Location)
    (hloc : s.currentLocation = some loc) :
    verifyLocationConsistency s = (some loc, s)
    ∨ verifyLocationConsistency s
        = (some getDefaultLocation, { s with currentLocation := some getDefaultLocation }) := by
  unfold verifyLocationConsistency
  rw [hloc]
  cases hm : s.useDefaultLocation with
  | false => left; simp
  | true =>
    by_cases hc : |loc.latitude - getDefaultLocation.latitude| < (0.001 : ℚ) ∧
        |loc.longitude - getDefaultLocation.longitude| < (0.001 : ℚ)
    · left; simp [hc]
    · right; simp [hc]

/-- Unfolding fetchNearbyPlaces on a successful fetch. -/
theorem fetchNearbyPlaces_ok_of_verify (e : StoreEnv) (t? : Option String) (r? : Option ℚ)
    (s : StoreState) (v : Location) (s0 : StoreState) (places : List Place)
    (hv : verifyLocationConsistency s = (some v, s0))
    (hsvc : svcGetNearbyPlaces e v (t?.getD s0.selectedPlaceType) (r?.getD s0.searchRadius)
      = Except.ok places) :
    fetchNearbyPlaces e t? r? s =
      { s0 with nearbyPlaces := places, allPlaces := [], error := none, isLoading := false } := by
  unfold fetchNearbyPlaces
  rw [hv]
  dsimp only
  rw [hsvc]

/-- Unfolding fetchNearbyPlaces on a failed fetch. -/
theorem fetchNearbyPlaces_error_of_verify (e : StoreEnv) (t? : Option String) (r? : Option ℚ)
    (s : StoreState) (v : Location) (s0 : StoreState) (msg : String)
    (hv : verifyLocationConsistency s = (some v, s0))
    (hsvc : svcGetNearbyPlaces e v (t?.getD s0.selectedPlaceType) (r?.getD s0.searchRadius)
      = Except.error msg) :
    fetchNearbyPlaces e t? r? s =
      { s0 with nearbyPlaces := [], allPlaces := [], error := some msg, isLoading := false } := by
  unfold fetchNearbyPlaces
  rw [hv]
  dsimp only
  rw [hsvc]

/-- Unfolding fetchAllNearbyPlaces once the location is verified. -/
theorem fetchAllNearbyPlaces_of_verify (e : StoreEnv) (r? : Option ℚ)
    (s : StoreState) (v : Location) (s0 : StoreState)
    (hv : verifyLocationConsistency s = (some v, s0)) :
    fetchAllNearbyPlaces e r? s =
      { s0 with
        nearbyPlaces := sortByDistance (uniqueById
          (collectAllPlaces e v (r?.getD s0.searchRadius) SUPPORTED_PLACE_TYPES))
        allPlaces := sortByDistance (uniqueById
          (collectAllPlaces e v (r?.getD s0.searchRadius) SUPPORTED_PLACE_TYPES))
        error := none
        isLoading := false } := by
  unfold fetchAllNearbyPlaces
  rw [hv]

/-- fetchAllNearbyPlaces keeps a default-pinned location and default
mode untouched. -/
theorem fetchAllNearbyPlaces_default_frame (e : StoreEnv) (r? : Option ℚ) (s : StoreState)
    (hmode : s.useDefaultLocation = true)
    (hloc : s.currentLocation = some getDefaultLocation) :
    (fetchAllNearbyPlaces e r? s).currentLocation = some getDefaultLocation
    ∧ (fetchAllNearbyPlaces e r? s).useDefaultLocation = true := by
  rw [fetchAllNearbyPlaces_of_verify e r? s getDefaultLocation s
    (verifyLocationConsistency_default s hmode hloc)]
  exact ⟨hloc, hmode⟩

/-- fetchNearbyPlaces in live mode keeps the current location and the
mode untouched. -/
theorem fetchNearbyPlaces_live_frame (e : StoreEnv) (t? : Option String) (r? : Option ℚ)
    (s : StoreState) (loc : Location)
    (hmode : s.useDefaultLocation = false)
    (hloc : s.currentLocation = some loc) :
    (fetchNearbyPlaces e t? r? s).currentLocation = some loc
    ∧ (fetchNearbyPlaces e t? r? s).useDefaultLocation = false := by
  have hv := verifyLocationConsistency_live s loc hmode hloc
  cases hsvc : svcGetNearbyPlaces e loc (t?.getD s.selectedPlaceType) (r?.getD s.searchRadius) with
  | ok places =>
    rw [fetchNearbyPlaces_ok_of_verify e t? r? s loc s places hv hsvc]
    exact ⟨hloc, hmode⟩
  | error msg =>
    rw [fetchNearbyPlaces_error_of_verify e t? r? s loc s msg hv hsvc]
    exact ⟨hloc, hmode⟩

/-- forceMapRefresh re-publishes the same state. -/
theorem forceMapRefresh_eq (s : StoreState) : forceMapRefresh s = s := by
  rcases s with ⟨cl, np, ap, pbc, ps, il, er, lw, spt, sr, ud, prp⟩
  cases cl <;> rfl

/-- The store's startLocationWatching touches neither the current
location nor the mode. -/
theorem storeStartLocationWatching_frame (s : StoreState) :
    (storeStartLocationWatching s).currentLocation = s.currentLocation
    ∧ (storeStartLocationWatching s).useDefaultLocation = s.useDefaultLocation := by
  unfold storeStartLocationWatching
  cases hc : s.currentLocation with
  | none => constructor <;> simp [hc]
  | some loc => constructor <;> simp [hc]

/- ---- Helper lemmas: unfolding toggleUseDefaultLocation ---- -/

/-- Unfolding the toggle from default mode when the live switch gets a
fix: store the live location, start watching, fetch the selected
category. -/
theorem toggleUseDefaultLocation_from_default_ok (e : StoreEnv) (s : StoreState)
    (loc : Location)
    (hmode : s.useDefaultLocation = true)
    (hg : (if e.gpsAvailable then svcGetCurrentLocation e
      else Except.error "GPS is not available on this device") = Except.ok loc) :
    toggleUseDefaultLocation e s =
      forceMapRefresh (fetchNearbyPlaces e none none (storeStartLocationWatching
        { s with
          currentLocation := some loc
          useDefaultLocation := false
          isLoading := false
          error := none })) := by
  unfold toggleUseDefaultLocation
  rw [hmode]
  rw [if_neg (by simp : ¬((!true) = true))]
  dsimp only
  rw [hg]

/-- Unfolding the toggle from default mode when the live switch fails:
roll back to the default location in default mode with the explanatory
error, stop watching, fetch all categories. -/
theorem toggleUseDefaultLocation_from_default_error (e : StoreEnv) (s : StoreState)
    (msg : String)
    (hmode : s.useDefaultLocation = true)
    (hg : (if e.gpsAvailable then svcGetCurrentLocation e
      else Except.error "GPS is not available on this device") = Except.error msg) :
    toggleUseDefaultLocation e s =
      forceMapRefresh (fetchAllNearbyPlaces e none (storeStopLocationWatching
        { s with
          currentLocation := some getDefaultLocation
          useDefaultLocation := true
          isLoading := false
          error := some ("Failed to get your current location: " ++ msg ++
            ". Reverted to default location.") })) := by
  unfold toggleUseDefaultLocation
  rw [hmode]
  rw [if_neg (by simp : ¬((!true) = true))]
  dsimp only
  rw [hg]

/-- Unfolding the toggle from live mode: pin the default location in
default mode, stop watching, fetch all categories. -/
theorem toggleUseDefaultLocation_from_live (e : StoreEnv) (s : StoreState)
    (hmode : s.useDefaultLocation = false) :
    toggleUseDefaultLocation e s =
      forceMapRefresh (fetchAllNearbyPlaces e none
        { storeStopLocationWatching s with
          currentLocation := some getDefaultLocation
          useDefaultLocation := true
          isLoading := false
          error := none }) := by
  unfold toggleUseDefaultLocation
  rw [hmode]
  rw [if_pos (by simp : (!false) = true)]

/- ---- Claim C1: fetchAllNearbyPlaces merges every category ---- -/

/-- Claim C1: in default mode (location pinned to the default),
fetchAllNearbyPlaces publishes the same list as allPlaces and
nearbyPlaces; that list is sorted by ascending distance, carries
pairwise distinct place ids, and consists exactly of the first
occurrences (in category order) of the merged per-category results of
every supported place type, where a failed category contributes nothing
— so a single category's failure does not abort the remaining
categories' fetches. -/
theorem fetchAllNearbyPlaces_merges_all_categories (e : StoreEnv) (r? : Option ℚ)
    (s : StoreState)
    (hmode : s.useDefaultLocation = true)
    (hloc : s.currentLocation = some getDefaultLocation) :
    (fetchAllNearbyPlaces e r? s).allPlaces = (fetchAllNearbyPlaces e r? s).nearbyPlaces
    ∧ (fetchAllNearbyPlaces e r? s).nearbyPlaces
        = sortByDistance (uniqueById
            (mergedCategoryResults e getDefaultLocation (r?.getD s.searchRadius)))
    ∧ List.Sorted (fun a b : Place => distKey a ≤ distKey b)
        (fetchAllNearbyPlaces e r? s).nearbyPlaces
    ∧ List.Pairwise (fun a b : Place => a.id ≠ b.id)
        (fetchAllNearbyPlaces e r? s).nearbyPlaces
    ∧ (∀ p ∈ (fetchAllNearbyPlaces e r? s).nearbyPlaces,
        (mergedCategoryResults e getDefaultLocation (r?.getD s.searchRadius)).find?
          (fun q => q.id == p.id) = some p)
    ∧ (∀ q ∈ mergedCategoryResults e getDefaultLocation (r?.getD s.searchRadius),
        ∃ p ∈ (fetchAllNearbyPlaces e r? s).nearbyPlaces, p.id = q.id) := by
  have hv := verifyLocationConsistency_default s hmode hloc
  have he := fetchAllNearbyPlaces_of_verify e r? s getDefaultLocation s hv
  have hm : collectAllPlaces e getDefaultLocation (r?.getD s.searchRadius) SUPPORTED_PLACE_TYPES
      = mergedCategoryResults e getDefaultLocation (r?.getD s.searchRadius) :=
    collectAllPlaces_eq_flatMap e getDefaultLocation (r?.getD s.searchRadius)
      SUPPORTED_PLACE_TYPES
  rw [he]
  dsimp only
  rw [hm]
  have hperm := sortByDistance_perm
    (uniqueById (mergedCategoryResults e getDefaultLocation (r?.getD s.searchRadius)))
  refine ⟨rfl, rfl, sortByDistance_sorted _, ?_, ?_, ?_⟩
  · refine (List.Perm.pairwise_iff (fun hxy => Ne.symm hxy) hperm).mpr ?_
    rw [uniqueById_eq_keepFirstById]
    exact keepFirstById_pairwise _ []
  · intro p hp
    have hp2 : p ∈ uniqueById
        (mergedCategoryResults e getDefaultLocation (r?.getD s.searchRadius)) :=
      hperm.mem_iff.mp hp
    rw [uniqueById_eq_keepFirstById] at hp2
    exact ((mem_keepFirstById p _ []).mp hp2).2
  · intro q hq
    obtain ⟨p, hpmem, hpid⟩ := keepFirstById_cover
      (mergedCategoryResults e getDefaultLocation (r?.getD s.searchRadius)) [] q hq (by simp)
    refine ⟨p, ?_, hpid⟩
    rw [← uniqueById_eq_keepFirstById] at hpmem
    exact hperm.mem_iff.mpr hpmem

/-- Witness for C1 at a concrete environment where the restaurant fetch
fails while cafe and zoo succeed with a duplicated place id. -/
theorem fetchAllNearbyPlaces_merges_all_categories_witness :
    (fetchAllNearbyPlaces envC1 none storeC1).allPlaces
      = (fetchAllNearbyPlaces envC1 none storeC1).nearbyPlaces
    ∧ (fetchAllNearbyPlaces envC1 none storeC1).nearbyPlaces
        = sortByDistance (uniqueById
            (mergedCategoryResults envC1 getDefaultLocation
              ((none : Option ℚ).getD storeC1.searchRadius)))
    ∧ List.Sorted (fun a b : Place => distKey a ≤ distKey b)
        (fetchAllNearbyPlaces envC1 none storeC1).nearbyPlaces
    ∧ List.Pairwise (fun a b : Place => a.id ≠ b.id)
        (fetchAllNearbyPlaces envC1 none storeC1).nearbyPlaces
    ∧ (∀ p ∈ (fetchAllNearbyPlaces envC1 none storeC1).nearbyPlaces,
        (mergedCategoryResults envC1 getDefaultLocation
          ((none : Option ℚ).getD storeC1.searchRadius)).find?
          (fun q => q.id == p.id) = some p)
    ∧ (∀ q ∈ mergedCategoryResults envC1 getDefaultLocation
          ((none : Option ℚ).getD storeC1.searchRadius),
        ∃ p ∈ (fetchAllNearbyPlaces envC1 none storeC1).nearbyPlaces, p.id = q.id) :=
  fetchAllNearbyPlaces_merges_all_categories envC1 none storeC1 rfl rfl

/- ---- Claim C2: a failed re-fetch and the place list ---- -/

/-- Counterexample to claim C2 as stated: from a state holding places
from an earlier successful fetch, a failing fetchNearbyPlaces sets the
error message but does NOT leave nearbyPlaces unchanged — the list is
cleared (the store clears it at the start of every fetch and again on
error). -/
theorem fetchNearbyPlaces_preserves_places_counterexample :
    storeC2.nearbyPlaces = [placeA]
    ∧ (fetchNearbyPlaces envFail none none storeC2).error = some "Network request failed"
    ∧ (fetchNearbyPlaces envFail none none storeC2).nearbyPlaces ≠ storeC2.nearbyPlaces := by
  refine ⟨rfl, rfl, ?_⟩
  have h1 : (fetchNearbyPlaces envFail none none storeC2).nearbyPlaces = [] := rfl
  have h2 : storeC2.nearbyPlaces = [placeA] := rfl
  rw [h1, h2]
  simp

/-- Claim C2 as amended: when the underlying request rejects, a
subsequent fetchNearbyPlaces call sets the error field and resets
nearbyPlaces to the empty list — previously fetched places are cleared,
not preserved. -/
theorem fetchNearbyPlaces_failure_clears_places (e : StoreEnv) (t? : Option String)
    (r? : Option ℚ) (s : StoreState) (loc : Location) (msg : String)
    (hloc : s.currentLocation = some loc)
    (hfail : ∀ (l : Location) (ty : String) (rad : ℚ), e.placesApi l ty rad = Except.error msg) :
    (fetchNearbyPlaces e t? r? s).error = some msg
    ∧ (fetchNearbyPlaces e t? r? s).nearbyPlaces = [] := by
  have hsvc : ∀ (l : Location) (ty : String) (rad : ℚ),
      svcGetNearbyPlaces e l ty rad = Except.error msg := by
    intro l ty rad
    unfold svcGetNearbyPlaces
    rw [hfail l ty rad]
    rfl
  rcases verifyLocationConsistency_of_some s loc hloc with hv | hv
  · rw [fetchNearbyPlaces_error_of_verify e t? r? s loc s msg hv (hsvc _ _ _)]
    exact ⟨rfl, rfl⟩
  · rw [fetchNearbyPlaces_error_of_verify e t? r? s getDefaultLocation _ msg hv (hsvc _ _ _)]
    exact ⟨rfl, rfl⟩

/-- Witness for the amended C2 at the concrete failing environment. -/
theorem fetchNearbyPlaces_failure_clears_places_witness :
    (fetchNearbyPlaces envFail none none storeC2).error = some "Network request failed"
    ∧ (fetchNearbyPlaces envFail none none storeC2).nearbyPlaces = [] :=
  fetchNearbyPlaces_failure_clears_places envFail none none storeC2 getDefaultLocation
    "Network request failed" rfl (fun _ _ _ => rfl)

/- ---- Claim C3: default - live - default round trip ---- -/

/-- Claim C3: from default mode, toggling to live (whether the live
switch succeeds or fails) and then toggling back to default leaves
currentLocation equal to exactly the fixed fallback coordinate returned
by getDefaultLocation, in default mode.  (After a failed live switch
the store has already rolled back to default, so toggleBackToDefault
issues the second toggle only when the first one reached live mode.) -/
theorem toggle_default_live_default_roundtrip (e1 e2 : StoreEnv) (s : StoreState)
    (hmode : s.useDefaultLocation = true) :
    (toggleBackToDefault e2 (toggleUseDefaultLocation e1 s)).currentLocation
      = some getDefaultLocation
    ∧ (toggleBackToDefault e2 (toggleUseDefaultLocation e1 s)).useDefaultLocation = true := by
  cases hg : (if e1.gpsAvailable then svcGetCurrentLocation e1
      else Except.error "GPS is not available on this device") with
  | ok loc =>
    rw [toggleUseDefaultLocation_from_default_ok e1 s loc hmode hg, forceMapRefresh_eq]
    have hstart := storeStartLocationWatching_frame
      { s with
        currentLocation := some loc
        useDefaultLocation := false
        isLoading := false
        error := none }
    have hm3 : (storeStartLocationWatching
        { s with
          currentLocation := some loc
          useDefaultLocation := false
          isLoading := false
          error := none }).useDefaultLocation = false := hstart.2
    have hc3 : (storeStartLocationWatching
        { s with
          currentLocation := some loc
          useDefaultLocation := false
          isLoading := false
          error := none }).currentLocation = some loc := hstart.1
    obtain ⟨hc4, hm4⟩ := fetchNearbyPlaces_live_frame e1 none none _ loc hm3 hc3
    unfold toggleBackToDefault
    rw [hm4]
    rw [if_neg (by simp : ¬(false = true))]
    rw [toggleUseDefaultLocation_from_live e2 _ hm4, forceMapRefresh_eq]
    exact fetchAllNearbyPlaces_default_frame e2 none _ rfl rfl
  | error msg =>
    rw [toggleUseDefaultLocation_from_default_error e1 s msg hmode hg, forceMapRefresh_eq]
    obtain ⟨hc1, hm1⟩ := fetchAllNearbyPlaces_default_frame e1 none
      (storeStopLocationWatching
        { s with
          currentLocation := some getDefaultLocation
          useDefaultLocation := true
          isLoading := false
          error := some ("Failed to get your current location: " ++ msg ++
            ". Reverted to default location.") }) rfl rfl
    unfold toggleBackToDefault
    rw [hm1, if_pos rfl]
    exact ⟨hc1, hm1⟩

/-- Witness for C3: a concrete round trip through a successful live
switch. -/
theorem toggle_default_live_default_roundtrip_witness :
    (toggleBackToDefault envFail (toggleUseDefaultLocation envC1 storeC1)).currentLocation
      = some getDefaultLocation
    ∧ (toggleBackToDefault envFail (toggleUseDefaultLocation envC1 storeC1)).useDefaultLocation
      = true :=
  toggle_default_live_default_roundtrip envC1 envFail storeC1 rfl

/- ---- Claim C7: location timeout leaves currentLocation unchanged ---- -/

/-- Claim C7: when the location provider rejects with error code 3
(timeout), the store's getCurrentLocation action records exactly the
message "Location request timed out" in the error field and leaves
currentLocation at its prior value. -/
theorem storeGetCurrentLocation_timeout (e : StoreEnv) (s : StoreState)
    (h : e.currentPos = Except.error 3) :
    (storeGetCurrentLocation e s).error = some "Location request timed out"
    ∧ (storeGetCurrentLocation e s).currentLocation = s.currentLocation := by
  have hsvc : svcGetCurrentLocation e = Except.error "Location request timed out" := by
    unfold svcGetCurrentLocation
    rw [h]
    rfl
  unfold storeGetCurrentLocation
  rw [hsvc]
  exact ⟨rfl, rfl⟩

/-- Witness for C7 at the concrete timing-out environment. -/
theorem storeGetCurrentLocation_timeout_witness :
    (storeGetCurrentLocation envFail initialStoreState).error
      = some "Location request timed out"
    ∧ (storeGetCurrentLocation envFail initialStoreState).currentLocation
      = initialStoreState.currentLocation :=
  storeGetCurrentLocation_timeout envFail initialStoreState rfl

/- ---- Claim C8: at most one active location watch ---- -/

/-- Stopping preserves the watcher invariant (and empties the
registration set). -/
theorem watcherInv_stop (w : WatcherState) (h : WatcherInv w) :
    WatcherInv (svcStopLocationWatching w) := by
  rcases h with ⟨h1, h2⟩ | ⟨i, h1, h2⟩
  · have hx : svcStopLocationWatching w = w := by
      unfold svcStopLocationWatching
      rw [h1]
    rw [hx]
    exact Or.inl ⟨h1, h2⟩
  · have hx : svcStopLocationWatching w =
        { w with activeWatches := w.activeWatches.erase i, locationWatcherId := none } := by
      unfold svcStopLocationWatching
      rw [h1]
    rw [hx]
    left
    refine ⟨rfl, ?_⟩
    dsimp only
    rw [h2]
    simp

/-- Starting from an invariant state yields an invariant state whose
registration set is a single fresh watch. -/
theorem watcherInv_start_one (w : WatcherState) (h : WatcherInv w) :
    WatcherInv (svcStartLocationWatching w)
    ∧ (svcStartLocationWatching w).activeWatches.length = 1 := by
  rcases h with ⟨h1, h2⟩ | ⟨i, h1, h2⟩
  · have hx : svcStartLocationWatching w =
        { w with
          locationWatcherId := some w.nextWatchId
          activeWatches := w.activeWatches ++ [w.nextWatchId]
          nextWatchId := w.nextWatchId + 1 } := by
      unfold svcStartLocationWatching
      rw [h1]
    rw [hx]
    constructor
    · right
      refine ⟨w.nextWatchId, rfl, ?_⟩
      dsimp only
      rw [h2]
      rfl
    · dsimp only
      rw [h2]
      rfl
  · have hstop : svcStopLocationWatching w =
        { w with activeWatches := w.activeWatches.erase i, locationWatcherId := none } := by
      unfold svcStopLocationWatching
      rw [h1]
    have he : w.activeWatches.erase i = [] := by
      rw [h2]
      simp
    have hx : svcStartLocationWatching w =
        { w with
          locationWatcherId := some w.nextWatchId
          activeWatches := w.activeWatches.erase i ++ [w.nextWatchId]
          nextWatchId := w.nextWatchId + 1 } := by
      unfold svcStartLocationWatching
      rw [h1, hstop]
    rw [hx]
    constructor
    · right
      refine ⟨w.nextWatchId, rfl, ?_⟩
      dsimp only
      rw [he]
      rfl
    · dsimp only
      rw [he]
      rfl

/-- Every watch operation preserves the watcher invariant. -/
theorem watcherInv_apply (w : WatcherState) (op : WatchOp) (h : WatcherInv w) :
    WatcherInv (applyWatchOp w op) := by
  cases op with
  | start => exact (watcherInv_start_one w h).1
  | stop => exact watcherInv_stop w h

/-- Running any operation sequence preserves the watcher invariant. -/
theorem watcherInv_run : ∀ (ops : List WatchOp) (w : WatcherState),
    WatcherInv w → WatcherInv (runWatchOps w ops) := by
  intro ops
  induction ops with
  | nil => intro w h; exact h
  | cons op rest ih => intro w h; exact ih _ (watcherInv_apply w op h)

/-- Appending a final start is starting from the reached state. -/
theorem runWatchOps_append_start : ∀ (ops : List WatchOp) (w : WatcherState),
    runWatchOps w (ops ++ [WatchOp.start])
      = svcStartLocationWatching (runWatchOps w ops) := by
  intro ops
  induction ops with
  | nil => intro w; rfl
  | cons op rest ih => intro w; exact ih (applyWatchOp w op)

/-- Claim C8: under any interleaving of start and stop operations from
the initial service state, at most one watch subscription is registered
with the platform at any time, and immediately after a start exactly
one is registered — so a single position change triggers exactly one
update callback (a new start first clears the prior watch). -/
theorem watch_single_active (ops : List WatchOp) :
    (runWatchOps initialWatcherState ops).activeWatches.length ≤ 1
    ∧ updateCallbacksPerPositionChange
        (runWatchOps initialWatcherState (ops ++ [WatchOp.start])) = 1 := by
  have hinv : WatcherInv (runWatchOps initialWatcherState ops) :=
    watcherInv_run ops initialWatcherState (Or.inl ⟨rfl, rfl⟩)
  constructor
  · rcases hinv with ⟨_, h2⟩ | ⟨i, _, h2⟩ <;> rw [h2] <;> simp
  · rw [runWatchOps_append_start ops initialWatcherState]
    unfold updateCallbacksPerPositionChange
    exact (watcherInv_start_one _ hinv).2

/- ---- Claim C9: permission invariant ---- -/

/-- The iOS non-prompting status check only ever answers granted or
denied, always with canAskAgain true. -/
theorem checkIOSPermissionStatus_cases (x : Except ℕ Unit) :
    checkIOSPermissionStatus x = { status := PermStatus.granted, canAskAgain := true }
    ∨ checkIOSPermissionStatus x = { status := PermStatus.denied, canAskAgain := true } := by
  rcases x with c | u
  · right
    match c with
    | 0 => rfl
    | 1 => rfl
    | 2 => rfl
    | n + 3 => rfl
  · left; rfl

/-- The Android non-prompting status check only ever answers granted or
denied, always with canAskAgain true. -/
theorem checkAndroidPermissionStatus_cases (x : Except Unit Bool) :
    checkAndroidPermissionStatus x = { status := PermStatus.granted, canAskAgain := true }
    ∨ checkAndroidPermissionStatus x = { status := PermStatus.denied, canAskAgain := true } := by
  rcases x with u | b
  · right; rfl
  · cases b
    · right; rfl
    · left; rfl

/-- Claim C9: every LocationPermission produced by
requestLocationPermission or checkPermissionStatus — on either platform
and for every platform outcome including internal errors — satisfies
the invariant that status never_ask_again or restricted implies
canAskAgain = false. -/
theorem permission_restriction_not_askable (p : Platform)
    (ios : IOSAuthOutcome) (android : AndroidReqOutcome)
    (iosProbe : Except ℕ Unit) (androidCheck : Except Unit Bool)
    (lp : LocationPermission)
    (hsrc : lp = requestLocationPermission p ios android
      ∨ lp = checkPermissionStatus p iosProbe androidCheck)
    (hst : lp.status = PermStatus.never_ask_again ∨ lp.status = PermStatus.restricted) :
    lp.canAskAgain = false := by
  rcases hsrc with h | h
  · subst h
    cases p
    · cases ios <;> simp_all [requestLocationPermission, requestIOSPermission]
    · cases android <;> simp_all [requestLocationPermission, requestAndroidPermission]
  · subst h
    cases p
    · rcases checkIOSPermissionStatus_cases iosProbe with hx | hx <;>
        simp_all [checkPermissionStatus]
    · rcases checkAndroidPermissionStatus_cases androidCheck with hx | hx <;>
        simp_all [checkPermissionStatus]

/-- Witness for C9: the Android never-ask-again outcome. -/
theorem permission_restriction_not_askable_witness :
    (requestLocationPermission Platform.android IOSAuthOutcome.granted
      AndroidReqOutcome.neverAskAgain).canAskAgain = false :=
  permission_restriction_not_askable Platform.android IOSAuthOutcome.granted
    AndroidReqOutcome.neverAskAgain (Except.ok ()) (Except.ok true)
    (requestLocationPermission Platform.android IOSAuthOutcome.granted
      AndroidReqOutcome.neverAskAgain)
    (Or.inl rfl) (Or.inl rfl)

/- ---- Claim C10: the 0.001-degree drift threshold ---- -/

/-- Claim C10: in default mode with a location set, the consistency
check replaces currentLocation with the default exactly when the
latitude or longitude drifts from the default by at least 0.001
degrees; strictly smaller drift is left uncorrected, so after the check
currentLocation may still differ from the default by up to 0.001
degrees in each coordinate. -/
theorem verifyLocationConsistency_drift_threshold (s : StoreState) (loc : Location)
    (hmode : s.useDefaultLocation = true) (hloc : s.currentLocation = some loc) :
    ((|loc.latitude - getDefaultLocation.latitude| < 0.001
        ∧ |loc.longitude - getDefaultLocation.longitude| < 0.001) →
      verifyLocationConsistency s = (some loc, s))
    ∧ ((0.001 ≤ |loc.latitude - getDefaultLocation.latitude|
        ∨ 0.001 ≤ |loc.longitude - getDefaultLocation.longitude|) →
      verifyLocationConsistency s
        = (some getDefaultLocation, { s with currentLocation := some getDefaultLocation })) := by
  unfold verifyLocationConsistency
  rw [hloc, hmode]
  constructor
  · intro hc
    simp [hc]
  · intro hc
    have hnc : ¬(|loc.latitude - getDefaultLocation.latitude| < (0.001 : ℚ)
        ∧ |loc.longitude - getDefaultLocation.longitude| < (0.001 : ℚ)) := by
      rcases hc with hc | hc
      · exact fun hx => absurd hx.1 (not_lt.mpr hc)
      · exact fun hx => absurd hx.2 (not_lt.mpr hc)
    simp [hnc]

/-- Witness for C10: a 0.0005-degree latitude drift stays uncorrected. -/
theorem verifyLocationConsistency_drift_threshold_witness :
    verifyLocationConsistency storeC10 = (some locC10, storeC10) :=
  (verifyLocationConsistency_drift_threshold storeC10 locC10 rfl rfl).1
    (by constructor <;>
      norm_num [locC10, getDefaultLocation, ENV_DEFAULT_LOCATION, abs_lt])
